import Mathlib

/-
Shallow embedding of `plot_containment.py` (single source file of the
repository).  Python strings are modeled as `String` / `List Char`
(char-level processing works on `List Char`), pandas data frames as a
list of column names plus a list of string-cell rows, file inputs as an
inductive capturing existence / byte size / parse outcome, and the
side-effecting plot functions as pure functions returning the ordered
trace of their observable events (file copies, placeholder writes,
image saves, prints, non-zero exit).  Digits are modeled as the ASCII
digits `0`-`9` (the practical domain of the script's inputs); chart
rendering (`chart.save`) is modeled by an `Except String Unit`
parameter saying whether that step raises.
-/

namespace PC

/-! ## natural_sort_key (plot_containment.py lines 13-15) -/

/-- One component of the tuple produced by `natural_sort_key`
(line 15): a digit run becomes `int(c)`, any other piece becomes
`c.lower()`. -/
inductive Comp
  | s (x : List Char)
  | n (x : Nat)
deriving DecidableEq

/-- Three-way comparison of naturals (Python `int` comparison). -/
def natCmp (a b : Nat) : Ordering :=
  if a < b then .lt else if a = b then .eq else .gt

/-- Python string comparison: lexicographic on code points. -/
def strCmp : List Char → List Char → Ordering
  | [], [] => .eq
  | [], _ :: _ => .lt
  | _ :: _, [] => .gt
  | a :: as, b :: bs =>
    match natCmp a.toNat b.toNat with
    | .eq => strCmp as bs
    | o => o

/-- Comparison of two tuple components.  Python raises `TypeError` when
an `int` meets a `str`; that is modeled by `none`. -/
def compCmp : Comp → Comp → Option Ordering
  | .s a, .s b => some (strCmp a b)
  | .n a, .n b => some (natCmp a b)
  | _, _ => none

/-- Python tuple comparison, element by element; a shorter tuple that is
a prefix of the longer one compares less.  `none` models a `TypeError`
raised while comparing. -/
def keyCmp : List Comp → List Comp → Option Ordering
  | [], [] => some .eq
  | [], _ :: _ => some .lt
  | _ :: _, [] => some .gt
  | a :: as, b :: bs =>
    match compCmp a b with
    | none => none
    | some .eq => keyCmp as bs
    | some o => some o

/-- `k1` sorts strictly before `k2`. -/
def keyLt (k1 k2 : List Comp) : Prop := keyCmp k1 k2 = some .lt

instance (k1 k2 : List Comp) : Decidable (keyLt k1 k2) :=
  inferInstanceAs (Decidable (keyCmp k1 k2 = some .lt))

/-- `re.split(r"(\d+)", text)` with fuel: the input is cut into an
alternating sequence of (possibly empty) digit-free pieces and captured
maximal nonempty digit runs, starting and ending with a digit-free
piece. -/
def splitDAux : Nat → List Char → List (List Char)
  | 0, s => [s]
  | n + 1, s =>
    let rest := s.dropWhile (fun c => !c.isDigit)
    if rest.isEmpty then [s.takeWhile (fun c => !c.isDigit)]
    else
      s.takeWhile (fun c => !c.isDigit) ::
        rest.takeWhile Char.isDigit ::
          splitDAux n (rest.dropWhile Char.isDigit)

/-- `re.split(r"(\d+)", text)`: each recursion step consumes at least
one character, so `s.length` is enough fuel. -/
def splitDigits (s : List Char) : List (List Char) := splitDAux s.length s

/-- Python `str.isdigit()`: true iff nonempty and all digits. -/
def pyIsDigitStr (l : List Char) : Bool := !l.isEmpty && l.all Char.isDigit

/-- Python `int()` on a digit string. -/
def digitsToNat (l : List Char) : Nat :=
  l.foldl (fun a c => a * 10 + (c.toNat - 48)) 0

/-- `int(c) if c.isdigit() else c.lower()` (line 15). -/
def toComp (l : List Char) : Comp :=
  if pyIsDigitStr l then .n (digitsToNat l) else .s (l.map Char.toLower)

/-- `natural_sort_key` (lines 13-15): the comparison key tuple. -/
def natural_sort_key (s : List Char) : List Comp :=
  (splitDigits s).map toComp

/-- Shape invariant of keys produced by `natural_sort_key`: a string
component, then alternately numeric and string components, ending with
a string component (so string components sit at even positions and
numeric ones at odd positions). -/
inductive GoodKey : List Comp → Prop
  | single (a : List Char) : GoodKey [.s a]
  | cons (a : List Char) (x : Nat) (rest : List Comp) :
      GoodKey rest → GoodKey (.s a :: .n x :: rest)

/-- Whether a component is a string component. -/
def isStrComp : Comp → Bool
  | .s _ => true
  | .n _ => false

/-! ## Sort-key derivation in single-file mode (lines 115-126) -/

/-- `" " in name`. -/
def hasSpace : List Char → Bool
  | [] => false
  | c :: t => if c = ' ' then true else hasSpace t

/-- `name.split(" ", 1)[1]`: the substring after the first space. -/
def afterFirstSpace : List Char → List Char
  | [] => []
  | c :: t => if c = ' ' then t else afterFirstSpace t

/-- `get_sort_key` (lines 116-120): substring after the first space if
a space occurs, otherwise `name.split(" ")[0]` (the whole name when no
space occurs). -/
def get_sort_key (l : List Char) : List Char :=
  if hasSpace l then afterFirstSpace l
  else l.takeWhile (fun c => decide (c ≠ ' '))

/-! ## Data frames and files -/

/-- A pandas data frame: ordered column names and rows of cells. -/
structure DF where
  columns : List String
  rows : List (List String)
deriving DecidableEq

/-- Parsed command-line arguments (lines 19-53) relevant to the modeled
logic.  `title_pfx` is the `--title-prefix` option. -/
structure Args where
  input_csv : String
  output_csv : String
  output_plot : String
  no_plot : Bool
  title_pfx : String
  kmer : Int
  min_depth : Int
  scaled : Int

/-- One input path's state on disk: absent, or present with a byte size
and a parse outcome for `pd.read_csv` (an `.error` models the parser
raising). -/
inductive File
  | missing
  | file (size : Nat) (parse : Except String DF)

/-- Observable events of a run, in order: copying the input CSV to the
output CSV path, writing the combined CSV, writing a plain-text
placeholder at the plot path, saving a real chart image, printing a
line, and `sys.exit(1)`. -/
inductive Ev
  | copyCsv
  | writeCsv
  | writePlot (text : String)
  | saveImage
  | print (s : String)
  | exitFail
deriving DecidableEq

/-! ## Schema check in single-file mode (lines 106-113) -/

/-- `required_cols` (line 106). -/
def required_cols : List String := ["query_name", "containment"]

/-- `missing_cols` (line 107): required columns absent from the frame. -/
def missing_cols (df : DF) : List String :=
  required_cols.filter (fun c => !(df.columns.contains c))

/-- Python's single-quoted `repr` of a list of strings, as interpolated
by f-strings (lines 109-112). -/
def sq : String := String.singleton (Char.ofNat 39)

/-- `", ".join`-style joining. -/
def pyJoin (sep : String) : List String → String
  | [] => ""
  | [x] => x
  | x :: xs => x ++ sep ++ pyJoin sep xs

/-- `f"{['a', 'b']}"`: Python list-of-str repr. -/
def pyListRepr (l : List String) : String :=
  "[" ++ pyJoin ", " (l.map (fun s => sq ++ s ++ sq)) ++ "]"

/-! ## Titles (lines 169-172, 184-188, 350-353, 365-369) -/

/-- `title_parts` (lines 169-171 and 350-352): always `scaled=...`,
plus `min_depth=...` when `args.min_depth > 1`. -/
def title_parts (a : Args) : List String :=
  ["scaled=" ++ toString a.scaled] ++
    (if 1 < a.min_depth then ["min_depth=" ++ toString a.min_depth] else [])

/-- Single-mode title (line 172 and identically line 188):
`f"{args.title_prefix + ' ' if args.title_prefix else ''}(k={args.kmer}, {', '.join(title_parts)})"`. -/
def single_title (a : Args) : String :=
  (if a.title_pfx = "" then "" else a.title_pfx ++ " ") ++
    "(k=" ++ toString a.kmer ++ ", " ++ pyJoin ", " (title_parts a) ++ ")"

/-- Combined-mode title (line 353 and identically line 369):
`f"k={args.kmer}, {', '.join(title_parts)}"` — note: no title prefix. -/
def combined_title (a : Args) : String :=
  "k=" ++ toString a.kmer ++ ", " ++ pyJoin ", " (title_parts a)

/-! ## Sample labels (lines 247-249) -/

/-- Bool prefix test on char lists (used by `replaceFuel`). -/
def lpre : List Char → List Char → Bool
  | [], _ => true
  | _ :: _, [] => false
  | a :: as, b :: bs => if a = b then lpre as bs else false

/-- Python `str.replace(pat, rep)`: replace every non-overlapping
occurrence of `pat`, scanning left to right (fuel = input length; the
empty-pattern case, unused here, is modeled as no change). -/
def replaceFuel (pat rep : List Char) : Nat → List Char → List Char
  | 0, s => s
  | _ + 1, [] => []
  | n + 1, c :: rest =>
    if pat ≠ [] ∧ lpre pat (c :: rest) = true then
      rep ++ replaceFuel pat rep n ((c :: rest).drop pat.length)
    else c :: replaceFuel pat rep n rest

/-- `os.path.basename`: the part after the last `/`. -/
def basenameL (l : List Char) : List Char :=
  (l.reverse.takeWhile (fun c => decide (c ≠ '/'))).reverse

/-- The characters of `".csv"`. -/
def csvPat : List Char := '.' :: 'c' :: 's' :: 'v' :: []

/-- `os.path.basename(csv_file).replace(".csv", "")` (line 248): the
sample label derived from a file path. -/
def sample_name (p : String) : String :=
  String.mk (replaceFuel csvPat [] (basenameL p.toList).length (basenameL p.toList))

/-- Modeled from the spec (for comparison only, claim C4's words):
the base file name with its trailing extension removed. -/
def specStripExt (p : String) : String :=
  let b := basenameL p.toList
  if b.any (fun c => decide (c = '.')) then
    String.mk (((b.reverse.dropWhile (fun c => decide (c ≠ '.'))).drop 1).reverse)
  else String.mk b

/-! ## Single-file mode (create_single_plot, lines 62-208) -/

/-- Outcome of loading the single input CSV (lines 76-97): empty file,
parse error, zero rows, or a loaded frame. -/
inductive LoadOut
  | empty
  | noMatches
  | err (e : String)
  | loaded (df : DF)
deriving DecidableEq

/-- Lines 77-97: `os.path.getsize == 0` check, `pd.read_csv`, and the
`df.empty` check.  A missing file makes `os.path.getsize` raise. -/
def singleLoad : File → LoadOut
  | .missing => .err "No such file or directory"
  | .file sz p =>
    if sz = 0 then .empty
    else
      match p with
      | .error e => .err e
      | .ok df => if df.rows.isEmpty then .noMatches else .loaded df

/-- Lines 73-74: the input is copied to the output CSV path unless the
two paths coincide. -/
def copyEvs (a : Args) : List Ev :=
  if a.input_csv = a.output_csv then [] else [Ev.copyCsv]

/-- `create_single_plot` (lines 62-208) as an event trace.  `render`
models whether chart construction + `chart.save` (lines 135-196)
raises.  Debug-only prints (lines 66-71, 86-90) and the traceback dump
are omitted from the trace. -/
def create_single_plot (a : Args) (f : File) (render : Except String Unit) : List Ev :=
  copyEvs a ++
    match singleLoad f with
    | .empty =>
        [Ev.print ("ERROR: CSV file is empty"),
         Ev.writePlot ("No data to visualize - CSV file is empty")]
    | .err e =>
        [Ev.print ("Error processing CSV: " ++ e),
         Ev.writePlot ("Error: " ++ e), Ev.exitFail]
    | .noMatches =>
        [Ev.print ("No containment results found"),
         Ev.writePlot ("No matches found")]
    | .loaded df =>
        if a.no_plot then
          [Ev.print ("Skipping plot generation. CSV saved to: " ++ a.output_csv)]
        else if (missing_cols df).isEmpty then
          match render with
          | .ok _ =>
              [Ev.saveImage,
               Ev.print ("Plot saved to: " ++ a.output_plot),
               Ev.print ("CSV saved to: " ++ a.output_csv)]
          | .error e =>
              [Ev.print ("Error processing CSV: " ++ e),
               Ev.writePlot ("Error: " ++ e), Ev.exitFail]
        else
          [Ev.print ("ERROR: Missing required columns: " ++ pyListRepr (missing_cols df)),
           Ev.print ("Available columns: " ++ pyListRepr df.columns),
           Ev.writePlot ("Missing columns: " ++ pyListRepr (missing_cols df))]

/-! ## Row ordering in single-file mode (lines 115-126, 140) -/

/-- Index of a column name (first match). -/
def colIdx : List String → String → Nat
  | [], _ => 0
  | c :: t, x => if c = x then 0 else colIdx t x + 1

/-- Overwrite position `n` of a row. -/
def setAt : List String → Nat → String → List String
  | [], _, _ => []
  | _ :: t, 0, v => v :: t
  | c :: t, n + 1, v => c :: setAt t n v

/-- The `query_name` cell of a row. -/
def q_cell (cols : List String) (r : List String) : String :=
  r.getD (colIdx cols "query_name") ""

/-- Row comparison by the derived sort key (lines 122-125): row `r1`
may stay before `r2` iff its key is not greater. -/
def rowLe (cols : List String) (r1 r2 : List String) : Bool :=
  match keyCmp (natural_sort_key (get_sort_key ((q_cell cols r1).toList)))
        (natural_sort_key (get_sort_key ((q_cell cols r2).toList))) with
  | some .gt => false
  | _ => true

/-- Stable insertion into an already-sorted list (a new row goes after
every row that is `le` it). -/
def insSorted {α : Type} (le : α → α → Bool) (x : α) : List α → List α
  | [] => [x]
  | y :: ys => if le y x then y :: insSorted le x ys else x :: y :: ys

/-- Stable insertion sort: numpy's sort on these small frames keeps the
input order of tied keys, which stable insertion models. -/
def stableSort {α : Type} (le : α → α → Bool) (l : List α) : List α :=
  l.foldl (fun acc r => insSorted le r acc) []

/-- `df.sort_values("sort_key")` (lines 122-126). -/
def sortRows (df : DF) : DF :=
  { df with rows := stableSort (rowLe df.columns) df.rows }

/-- The display order of the bars (line 140:
`sort=list(df["query_name"])` after sorting). -/
def display_order (df : DF) : List String :=
  (sortRows df).rows.map (q_cell df.columns)

/-! ## Combined mode (lines 211-266, 269-378) -/

/-- `df.assign(barcode=sample_name)` (line 249): pandas overwrites the
values of an existing `barcode` column in place, otherwise appends a
new constant column at the end. -/
def dfAssign (df : DF) (col v : String) : DF :=
  if df.columns.contains col then
    { columns := df.columns,
      rows := df.rows.map (fun r => setAt r (colIdx df.columns col) v) }
  else
    { columns := df.columns ++ [col], rows := df.rows.map (fun r => r ++ [v]) }

/-- The loop of `create_combined_csv` (lines 238-250): keep, in input
order, every file that exists, is non-empty, parses, has rows, and has
both required columns; tag its rows with the derived sample label.  A
`pd.read_csv` exception propagates. -/
def contributing : List (String × File) → Except String (List DF)
  | [] => .ok []
  | (_, .missing) :: rest => contributing rest
  | (_, .file 0 _) :: rest => contributing rest
  | (_, .file (_ + 1) (.error e)) :: _ => .error e
  | (p, .file (_ + 1) (.ok df)) :: rest =>
    match contributing rest with
    | .error e => .error e
    | .ok tail =>
      if !df.rows.isEmpty && df.columns.contains "query_name"
          && df.columns.contains "containment" then
        .ok (dfAssign df "barcode" (sample_name p) :: tail)
      else .ok tail

/-- The empty frame written when no file contributes (line 255). -/
def emptyDF : DF := { columns := ["query_name", "containment", "barcode"], rows := [] }

/-- `pd.concat(dfs, ignore_index=True)` (line 261) for frames sharing
one schema (the contributing frames all carry the canonical columns):
rows are concatenated in list order. -/
def concatDF : List DF → DF
  | [] => { columns := [], rows := [] }
  | d :: ds => { columns := d.columns, rows := d.rows ++ (concatDF ds).rows }

/-- `create_combined_csv` (lines 235-266): the Bool is the function's
Python return value (`False` when no file contributed), the frame is
what gets written to `args.output_csv`. -/
def create_combined_csv (files : List (String × File)) : Except String (Bool × DF) :=
  match contributing files with
  | .error e => .error e
  | .ok [] => .ok (false, emptyDF)
  | .ok (d :: ds) => .ok (true, concatDF (d :: ds))

/-- `create_plot_from_combined_csv` (lines 269-378) as an event trace:
empty combined frame gives a placeholder; otherwise the chart is built
and saved, `render` modeling whether that raises (the exception is
handled by `create_combined_plot`'s handler, lines 225-232). -/
def create_plot_from_combined_csv (a : Args) (df : DF) (render : Except String Unit) : List Ev :=
  if df.rows.isEmpty then
    [Ev.print ("No data in combined CSV"), Ev.writePlot ("No valid data found")]
  else
    match render with
    | .ok _ => [Ev.saveImage, Ev.print ("Combined plot saved to: " ++ a.output_plot)]
    | .error e =>
        [Ev.print ("Error creating combined plot: " ++ e),
         Ev.writePlot ("Error: " ++ e), Ev.exitFail]

/-- `create_combined_plot` (lines 211-232): create the combined CSV,
optionally skip plotting, otherwise plot; any exception is caught,
a placeholder is written, and only then does the process exit(1). -/
def create_combined_plot (a : Args) (files : List (String × File))
    (render : Except String Unit) : List Ev :=
  match create_combined_csv files with
  | .error e =>
      [Ev.print ("Error creating combined plot: " ++ e),
       Ev.writePlot ("Error: " ++ e), Ev.exitFail]
  | .ok (ok?, df) =>
    (if ok? then [Ev.writeCsv, Ev.print ("Combined CSV saved to: " ++ a.output_csv)]
     else
       [Ev.print ("No valid CSV files found"), Ev.writeCsv,
        Ev.print ("Empty CSV saved to: " ++ a.output_csv)]) ++
      (if a.no_plot then [Ev.print ("Skipping plot generation. CSV data processed.")]
       else create_plot_from_combined_csv a df render)

/-- A file that contributes nothing to the combined CSV for one of the
four recognized benign reasons: missing, zero bytes, zero rows, or a
missing required column (a parse error is *not* benign). -/
def noContribB : File → Bool
  | .missing => true
  | .file 0 _ => true
  | .file (_ + 1) (.error _) => false
  | .file (_ + 1) (.ok df) =>
    df.rows.isEmpty || !(df.columns.contains "query_name")
      || !(df.columns.contains "containment")

/-! ## Helper lemmas about takeWhile / dropWhile -/

lemma tw_mem {α : Type} {q : α → Bool} :
    ∀ {l : List α} {c : α}, c ∈ l.takeWhile q → q c = true := by
  intro l
  induction l with
  | nil => intro c hc; simp [List.takeWhile] at hc
  | cons a t ih =>
    intro c hc
    cases hq : q a
    · simp [List.takeWhile, hq] at hc
    · simp only [List.takeWhile, hq, List.mem_cons] at hc
      rcases hc with h | h
      · subst h; exact hq
      · exact ih h

lemma tw_self {α : Type} {q : α → Bool} :
    ∀ {l : List α}, (∀ c ∈ l, q c = true) → l.takeWhile q = l := by
  intro l
  induction l with
  | nil => intro _; rfl
  | cons a t ih =>
    intro h
    simp [List.takeWhile, h a (by simp), ih (fun c hc => h c (by simp [hc]))]

lemma dw_nil_of_all {α : Type} {q : α → Bool} :
    ∀ {l : List α}, (∀ c ∈ l, q c = true) → l.dropWhile q = [] := by
  intro l
  induction l with
  | nil => intro _; rfl
  | cons a t ih =>
    intro h
    simp [List.dropWhile, h a (by simp), ih (fun c hc => h c (by simp [hc]))]

lemma tw_append_all {α : Type} {q : α → Bool} :
    ∀ {l1 l2 : List α}, (∀ c ∈ l1, q c = true) →
      (l1 ++ l2).takeWhile q = l1 ++ l2.takeWhile q := by
  intro l1
  induction l1 with
  | nil => intro l2 _; rfl
  | cons a t ih =>
    intro l2 h
    simp [List.takeWhile, h a (by simp), ih (fun c hc => h c (by simp [hc]))]

lemma dw_append_all {α : Type} {q : α → Bool} :
    ∀ {l1 l2 : List α}, (∀ c ∈ l1, q c = true) →
      (l1 ++ l2).dropWhile q = l2.dropWhile q := by
  intro l1
  induction l1 with
  | nil => intro l2 _; rfl
  | cons a t ih =>
    intro l2 h
    simp [List.dropWhile, h a (by simp), ih (fun c hc => h c (by simp [hc]))]

lemma dw_head {α : Type} {q : α → Bool} :
    ∀ {l t : List α} {c : α}, l.dropWhile q = c :: t → q c = false := by
  intro l
  induction l with
  | nil => intro t c h; simp [List.dropWhile] at h
  | cons a t' ih =>
    intro t c h
    cases hq : q a
    · simp [List.dropWhile, hq] at h
      rw [← h.1]; exact hq
    · rw [List.dropWhile_cons_of_pos hq] at h
      exact ih h

lemma dw_len {α : Type} {q : α → Bool} :
    ∀ {l : List α}, (l.dropWhile q).length ≤ l.length := by
  intro l
  induction l with
  | nil => simp [List.dropWhile]
  | cons a t ih =>
    cases hq : q a
    · simp [List.dropWhile, hq]
    · simp only [List.dropWhile, hq]
      exact Nat.le_succ_of_le ih

/-! ## Lemmas about the natural sort key -/

lemma splitDAux_nil (n : Nat) : splitDAux n [] = [[]] := by
  cases n <;> rfl

lemma pyIsDigitStr_nondigit {l : List Char} (h : ∀ c ∈ l, c.isDigit = false) :
    pyIsDigitStr l = false := by
  cases l with
  | nil => rfl
  | cons a t => simp [pyIsDigitStr, List.all_cons, h a (by simp)]

lemma pyIsDigitStr_digit {l : List Char} (hne : l ≠ []) (h : ∀ c ∈ l, c.isDigit = true) :
    pyIsDigitStr l = true := by
  cases l with
  | nil => exact absurd rfl hne
  | cons a t =>
    simp only [pyIsDigitStr, List.isEmpty_cons, Bool.not_false, Bool.true_and,
      List.all_eq_true]
    exact h

lemma toComp_nondigit {l : List Char} (h : ∀ c ∈ l, c.isDigit = false) :
    toComp l = .s (l.map Char.toLower) := by
  simp [toComp, pyIsDigitStr_nondigit h]

lemma toComp_digit {l : List Char} (hne : l ≠ []) (h : ∀ c ∈ l, c.isDigit = true) :
    toComp l = .n (digitsToNat l) := by
  simp [toComp, pyIsDigitStr_digit hne h]

/-- `re.split` on a digit-free prefix followed by one nonempty digit
run: a three-piece split, ending in the empty string. -/
lemma splitD_pd {p d : List Char} (hp : ∀ c ∈ p, c.isDigit = false) (hne : d ≠ [])
    (hd : ∀ c ∈ d, c.isDigit = true) :
    ∀ n, (p ++ d).length ≤ n → splitDAux n (p ++ d) = [p, d, []] := by
  intro n hn
  cases n with
  | zero =>
    exfalso
    have : (p ++ d).length = 0 := Nat.le_zero.mp hn
    have := List.length_eq_zero.mp this
    exact hne (List.append_eq_nil.mp this).2
  | succ m =>
    cases d with
    | nil => exact absurd rfl hne
    | cons e t =>
      have hq : ∀ c ∈ p, (!c.isDigit) = true := fun c hc => by simp [hp c hc]
      have he : e.isDigit = true := hd e (by simp)
      have hdrop : ((p ++ e :: t).dropWhile (fun c => !c.isDigit)) = e :: t := by
        rw [dw_append_all hq]
        simp [List.dropWhile, he]
      have htake : ((p ++ e :: t).takeWhile (fun c => !c.isDigit)) = p := by
        rw [tw_append_all hq]
        simp [List.takeWhile, he]
      simp only [splitDAux, hdrop, htake, List.isEmpty_cons, Bool.false_eq_true,
        if_false]
      rw [tw_self hd, dw_nil_of_all hd, splitDAux_nil]

/-- `re.split` on a fully digit-free string: a single piece. -/
lemma splitD_nondigit {s : List Char} (hs : ∀ c ∈ s, c.isDigit = false) :
    splitDigits s = [s] := by
  unfold splitDigits
  cases s with
  | nil => rfl
  | cons a t =>
    have hq : ∀ c ∈ a :: t, (!c.isDigit) = true := fun c hc => by simp [hs c hc]
    simp only [splitDAux, dw_nil_of_all hq, List.isEmpty_nil, if_true, tw_self hq]

/-- The key of a digit-free prefix followed by one digit run. -/
lemma key_pd {p d : List Char} (hp : ∀ c ∈ p, c.isDigit = false) (hne : d ≠ [])
    (hd : ∀ c ∈ d, c.isDigit = true) :
    natural_sort_key (p ++ d) = [.s (p.map Char.toLower), .n (digitsToNat d), .s []] := by
  unfold natural_sort_key splitDigits
  rw [splitD_pd hp hne hd _ (Nat.le_refl _)]
  simp only [List.map_cons, List.map_nil]
  rw [toComp_nondigit hp, toComp_digit hne hd]
  rfl

/-- The key of a digit-free string. -/
lemma key_nondigit {s : List Char} (hs : ∀ c ∈ s, c.isDigit = false) :
    natural_sort_key s = [.s (s.map Char.toLower)] := by
  unfold natural_sort_key
  rw [splitD_nondigit hs]
  simp [toComp_nondigit hs]

lemma natCmp_self (x : Nat) : natCmp x x = .eq := by
  simp [natCmp]

lemma strCmp_self : ∀ (l : List Char), strCmp l l = .eq := by
  intro l
  induction l with
  | nil => rfl
  | cons a t ih => simp [strCmp, natCmp_self, ih]

/-- Every key produced by `natural_sort_key` has the alternating
string/number shape. -/
lemma goodKey_splitDAux : ∀ n (s : List Char), s.length ≤ n →
    GoodKey ((splitDAux n s).map toComp) := by
  intro n
  induction n with
  | zero =>
    intro s hs
    have : s = [] := List.length_eq_zero.mp (Nat.le_zero.mp hs)
    subst this
    have h : (splitDAux 0 ([] : List Char)).map toComp = [Comp.s []] := by decide
    rw [h]
    exact GoodKey.single []
  | succ m ih =>
    intro s hs
    cases hr : s.dropWhile (fun c => !c.isDigit) with
    | nil =>
      simp only [splitDAux, hr, List.isEmpty_nil, if_true, List.map_cons, List.map_nil]
      have hpre : ∀ c ∈ s.takeWhile (fun c => !c.isDigit), c.isDigit = false :=
        fun c hc => by simpa using tw_mem hc
      rw [toComp_nondigit hpre]
      exact GoodKey.single _
    | cons e t =>
      have he : e.isDigit = true := by
        have := dw_head hr
        simpa using this
      have hrun : (e :: t).takeWhile Char.isDigit = e :: t.takeWhile Char.isDigit := by
        simp [List.takeWhile, he]
      have hlen : ((e :: t).dropWhile Char.isDigit).length ≤ m := by
        have h1 : (e :: t).dropWhile Char.isDigit = t.dropWhile Char.isDigit := by
          simp [List.dropWhile, he]
        have h2 : (s.dropWhile (fun c => !c.isDigit)).length ≤ s.length := dw_len
        rw [hr] at h2
        have h3 : t.length + 1 ≤ m + 1 := Nat.le_trans h2 hs
        rw [h1]
        exact Nat.le_trans dw_len (Nat.le_of_succ_le_succ h3)
      have hpre : ∀ c ∈ s.takeWhile (fun c => !c.isDigit), c.isDigit = false :=
        fun c hc => by simpa using tw_mem hc
      have hrd : ∀ c ∈ (e :: t).takeWhile Char.isDigit, c.isDigit = true :=
        fun c hc => tw_mem hc
      have hrne : (e :: t).takeWhile Char.isDigit ≠ [] := by
        rw [hrun]; exact List.cons_ne_nil _ _
      simp only [splitDAux, hr, List.isEmpty_cons, Bool.false_eq_true, if_false,
        List.map_cons]
      rw [toComp_nondigit hpre, toComp_digit hrne hrd]
      exact GoodKey.cons _ _ _ (ih _ hlen)

lemma goodKey_key (s : List Char) : GoodKey (natural_sort_key s) :=
  goodKey_splitDAux s.length s (Nat.le_refl _)

/-- In a well-shaped key, string components sit exactly at the even
positions. -/
lemma goodKey_parity {l : List Comp} (h : GoodKey l) :
    ∀ i (hi : i < l.length), isStrComp (l.get ⟨i, hi⟩) = decide (i % 2 = 0) := by
  induction h with
  | single a =>
    intro i hi
    have : i = 0 := by
      simp only [List.length_singleton] at hi
      omega
    subst this
    rfl
  | cons a x rest hrest ih =>
    intro i hi
    match i with
    | 0 => rfl
    | 1 => rfl
    | (j + 2) =>
      have hj : j < rest.length := by
        simp only [List.length_cons] at hi
        omega
      have hmod : (j + 2) % 2 = j % 2 := Nat.add_mod_right j 2
      have hget : ((Comp.s a :: Comp.n x :: rest).get ⟨j + 2, hi⟩) = rest.get ⟨j, hj⟩ := rfl
      rw [hget, hmod]
      exact ih j hj

/-- Two well-shaped keys always compare without a type error. -/
lemma goodKey_total : ∀ {k1 k2 : List Comp}, GoodKey k1 → GoodKey k2 →
    ∃ o, keyCmp k1 k2 = some o := by
  intro k1 k2 h1
  induction h1 generalizing k2 with
  | single a =>
    intro h2
    cases h2 with
    | single b =>
      cases hs : strCmp a b
      case lt => exact ⟨.lt, by simp [keyCmp, compCmp, hs]⟩
      case eq => exact ⟨.eq, by simp [keyCmp, compCmp, hs]⟩
      case gt => exact ⟨.gt, by simp [keyCmp, compCmp, hs]⟩
    | cons b y rest2 hrest2 =>
      cases hs : strCmp a b
      case lt => exact ⟨.lt, by simp [keyCmp, compCmp, hs]⟩
      case eq => exact ⟨.lt, by simp [keyCmp, compCmp, hs]⟩
      case gt => exact ⟨.gt, by simp [keyCmp, compCmp, hs]⟩
  | cons a x rest hrest ih =>
    intro h2
    cases h2 with
    | single b =>
      cases hs : strCmp a b
      case lt => exact ⟨.lt, by simp [keyCmp, compCmp, hs]⟩
      case eq => exact ⟨.gt, by simp [keyCmp, compCmp, hs]⟩
      case gt => exact ⟨.gt, by simp [keyCmp, compCmp, hs]⟩
    | cons b y rest2 hrest2 =>
      cases hs : strCmp a b
      case lt => exact ⟨.lt, by simp [keyCmp, compCmp, hs]⟩
      case gt => exact ⟨.gt, by simp [keyCmp, compCmp, hs]⟩
      case eq =>
        cases hn : natCmp x y
        case lt => exact ⟨.lt, by simp [keyCmp, compCmp, hs, hn]⟩
        case gt => exact ⟨.gt, by simp [keyCmp, compCmp, hs, hn]⟩
        case eq =>
          obtain ⟨o, ho⟩ := ih hrest2
          exact ⟨o, by simp [keyCmp, compCmp, hs, hn, ho]⟩

/-! ## Lemmas about sample labels (C4) -/

lemma lpre_refl : ∀ (l : List Char), lpre l l = true := by
  intro l
  induction l with
  | nil => rfl
  | cons a t ih => simp [lpre, ih]

lemma replaceFuel_nil (pat rep : List Char) (m : Nat) : replaceFuel pat rep m [] = [] := by
  cases m <;> rfl

/-- Replacing `".csv"` by nothing in `stem ++ ".csv"` returns `stem`
when the stem contains no dot. -/
lemma replace_csv_stem : ∀ (stem : List Char), (∀ c ∈ stem, c ≠ '.') →
    ∀ n, stem.length + 4 ≤ n → replaceFuel csvPat [] n (stem ++ csvPat) = stem := by
  intro stem
  induction stem with
  | nil =>
    intro _ n hn
    cases n with
    | zero => omega
    | succ m =>
      show replaceFuel csvPat [] (m + 1) ('.' :: 'c' :: 's' :: 'v' :: []) = []
      simp only [replaceFuel]
      rw [if_pos (show csvPat ≠ [] ∧ lpre csvPat ('.' :: 'c' :: 's' :: 'v' :: []) = true from by decide)]
      rw [show List.drop csvPat.length ('.' :: 'c' :: 's' :: 'v' :: []) = ([] : List Char) from rfl]
      rw [replaceFuel_nil]
      rfl
  | cons c stem ih =>
    intro h n hn
    cases n with
    | zero => omega
    | succ m =>
      have hc : c ≠ '.' := h c (by simp)
      show replaceFuel csvPat [] (m + 1) (c :: (stem ++ csvPat)) = c :: stem
      have hlen : stem.length + 4 ≤ m := by simp at hn; omega
      generalize hs : stem ++ csvPat = s
      have hlp : lpre csvPat (c :: s) = false := by
        show lpre ('.' :: 'c' :: 's' :: 'v' :: []) (c :: s) = false
        simp only [lpre]
        rw [if_neg (Ne.symm hc)]
      have hneg : ¬(csvPat ≠ [] ∧ lpre csvPat (c :: s) = true) := by
        rintro ⟨-, h2⟩
        rw [hlp] at h2
        exact Bool.false_ne_true h2
      simp only [replaceFuel]
      rw [if_neg hneg]
      rw [← hs, ih (fun x hx => h x (by simp [hx])) m hlen]

/-- `os.path.basename` is the identity on a slash-free path. -/
lemma basenameL_no_slash {l : List Char} (h : ∀ c ∈ l, c ≠ '/') : basenameL l = l := by
  unfold basenameL
  have h2 : ∀ c ∈ l.reverse, (decide (c ≠ '/')) = true := by
    intro c hc
    simp only [List.mem_reverse] at hc
    simp [h c hc]
  rw [tw_self h2, List.reverse_reverse]

/-! ## Lemmas about the space-based sort key (C6) -/

lemma hasSpace_false_mem : ∀ {l : List Char}, hasSpace l = false →
    ∀ c ∈ l, (decide (c ≠ ' ')) = true := by
  intro l
  induction l with
  | nil => intro _ c hc; simp at hc
  | cons a t ih =>
    intro h c hc
    simp only [hasSpace] at h
    by_cases ha : a = ' '
    · rw [if_pos ha] at h
      exact absurd h (by decide)
    · rw [if_neg ha] at h
      rcases List.mem_cons.mp hc with rfl | hc2
      · simp [ha]
      · exact ih h c hc2

lemma hasSpace_append (pre suf : List Char) : hasSpace (pre ++ ' ' :: suf) = true := by
  induction pre with
  | nil => simp [hasSpace]
  | cons a t ih =>
    simp only [List.cons_append, hasSpace]
    by_cases ha : a = ' '
    · rw [if_pos ha]
    · rw [if_neg ha]; exact ih

lemma afterFirstSpace_append : ∀ {pre : List Char}, hasSpace pre = false →
    ∀ (suf : List Char), afterFirstSpace (pre ++ ' ' :: suf) = suf := by
  intro pre
  induction pre with
  | nil => intro _ suf; simp [afterFirstSpace]
  | cons a t ih =>
    intro h suf
    simp only [hasSpace] at h
    by_cases ha : a = ' '
    · rw [if_pos ha] at h
      exact absurd h (by decide)
    · rw [if_neg ha] at h
      simp only [List.cons_append, afterFirstSpace]
      rw [if_neg ha]
      exact ih h suf

/-! ## Lemmas about the aggregation loop (C3) -/

/-- When every file is benignly non-contributing, the loop keeps
nothing. -/
lemma contributing_nil : ∀ {files : List (String × File)},
    (∀ pf ∈ files, noContribB pf.2 = true) → contributing files = .ok [] := by
  intro files
  induction files with
  | nil => intro _; rfl
  | cons pf rest ih =>
    intro h
    have hrest := ih (fun x hx => h x (by simp [hx]))
    obtain ⟨p, f⟩ := pf
    have hf : noContribB f = true := h (p, f) (by simp)
    match f with
    | .missing => simpa [contributing] using hrest
    | .file 0 q => simpa [contributing] using hrest
    | .file (sz + 1) (.error e) => simp [noContribB] at hf
    | .file (sz + 1) (.ok df) =>
      have key : ∀ (x y z : Bool), (x || !y || !z) = true → (!x && y && z) = false := by
        decide
      have hf2 : (df.rows.isEmpty || !df.columns.contains "query_name"
          || !df.columns.contains "containment") = true := hf
      have hcond : (!df.rows.isEmpty && df.columns.contains "query_name"
          && df.columns.contains "containment") = false := key _ _ _ hf2
      simp only [contributing, hrest, hcond, Bool.false_eq_true, if_false]

/-! ## Lemmas about strings (C7) -/

lemma str_data_inj {a b : String} (h : a.data = b.data) : a = b :=
  congrArg String.mk h

lemma data_append_pc (a b : String) : (a ++ b).data = a.data ++ b.data := by
  cases a; cases b; rfl

/-! ## Claim theorems -/

/-- Claim C1 (amended): the schema check recognizes exactly one
column-naming convention (`query_name`/`containment`, `required_cols`)
and performs no renaming; whenever a required column is absent the run
produces a failure report that prints the missing canonical fields and
the columns actually available, and writes the missing-column list into
the placeholder at the image path. -/
theorem c1_schema_mismatch_report (a : Args) (sz : Nat) (df : DF) (r : Except String Unit)
    (hsz : sz ≠ 0) (hrows : df.rows.isEmpty = false) (hnp : a.no_plot = false)
    (hm : (missing_cols df).isEmpty = false) :
    create_single_plot a (.file sz (.ok df)) r =
      copyEvs a ++
        [Ev.print ("ERROR: Missing required columns: " ++ pyListRepr (missing_cols df)),
         Ev.print ("Available columns: " ++ pyListRepr df.columns),
         Ev.writePlot ("Missing columns: " ++ pyListRepr (missing_cols df))] := by
  simp [create_single_plot, singleLoad, hsz, hrows, hnp, hm]

/-- Claim C1, counterexample to the claim as stated: an input in the
second historical convention (`name`/`similarity`/`md5`, the
"short identifier / similarity value / hash" family) is not recognized
or renamed — the run rejects it with a schema-mismatch report and never
saves a chart. -/
theorem c1_second_convention_rejected :
    create_single_plot
        { input_csv := "in.csv", output_csv := "out.csv", output_plot := "plot.png",
          no_plot := false, title_pfx := "", kmer := 31, min_depth := 1, scaled := 100 }
        (.file 1 (.ok { columns := ["name", "similarity", "md5"],
                        rows := [["NC_1 Ecoli", "0.9", "ab12"]] }))
        (.ok ())
      = [Ev.copyCsv,
         Ev.print ("ERROR: Missing required columns: " ++ pyListRepr ["query_name", "containment"]),
         Ev.print ("Available columns: " ++ pyListRepr ["name", "similarity", "md5"]),
         Ev.writePlot ("Missing columns: " ++ pyListRepr ["query_name", "containment"])]
    ∧ Ev.saveImage ∉ create_single_plot
        { input_csv := "in.csv", output_csv := "out.csv", output_plot := "plot.png",
          no_plot := false, title_pfx := "", kmer := 31, min_depth := 1, scaled := 100 }
        (.file 1 (.ok { columns := ["name", "similarity", "md5"],
                        rows := [["NC_1 Ecoli", "0.9", "ab12"]] }))
        (.ok ()) := by
  decide

/-- Claim C1, witness: the amended theorem applied to a concrete frame
that lacks the `containment` column. -/
theorem c1_schema_mismatch_report_w :
    create_single_plot
        { input_csv := "in.csv", output_csv := "out.csv", output_plot := "plot.png",
          no_plot := false, title_pfx := "", kmer := 31, min_depth := 1, scaled := 100 }
        (.file 1 (.ok { columns := ["query_name"], rows := [["q"]] }))
        (.ok ())
      = copyEvs
          { input_csv := "in.csv", output_csv := "out.csv", output_plot := "plot.png",
            no_plot := false, title_pfx := "", kmer := 31, min_depth := 1, scaled := 100 } ++
        [Ev.print ("ERROR: Missing required columns: "
            ++ pyListRepr (missing_cols { columns := ["query_name"], rows := [["q"]] })),
         Ev.print ("Available columns: "
            ++ pyListRepr (DF.columns { columns := ["query_name"], rows := [["q"]] })),
         Ev.writePlot ("Missing columns: "
            ++ pyListRepr (missing_cols { columns := ["query_name"], rows := [["q"]] }))] :=
  c1_schema_mismatch_report
    { input_csv := "in.csv", output_csv := "out.csv", output_plot := "plot.png",
      no_plot := false, title_pfx := "", kmer := 31, min_depth := 1, scaled := 100 }
    1 { columns := ["query_name"], rows := [["q"]] } (.ok ())
    (by decide) (by decide) (by decide) (by decide)

/-- Claim C2: in both modes, when chart construction / rendering
raises, the exception does not propagate: the trace ends with the
error print, then the plain-text placeholder carrying the exception's
description written at the image path, then — and only then — the
non-zero exit. -/
theorem c2_render_error_placeholder_then_fail (a : Args) (sz : Nat) (df : DF) (e : String)
    (files : List (String × File)) (df2 : DF)
    (hsz : sz ≠ 0) (hrows : df.rows.isEmpty = false) (hnp : a.no_plot = false)
    (hmc : (missing_cols df).isEmpty = true)
    (hcc : create_combined_csv files = .ok (true, df2)) (hr2 : df2.rows.isEmpty = false) :
    create_single_plot a (.file sz (.ok df)) (.error e) =
      copyEvs a ++
        [Ev.print ("Error processing CSV: " ++ e),
         Ev.writePlot ("Error: " ++ e), Ev.exitFail]
    ∧ create_combined_plot a files (.error e) =
        [Ev.writeCsv, Ev.print ("Combined CSV saved to: " ++ a.output_csv)] ++
          [Ev.print ("Error creating combined plot: " ++ e),
           Ev.writePlot ("Error: " ++ e), Ev.exitFail] := by
  constructor
  · simp [create_single_plot, singleLoad, hsz, hrows, hnp, hmc]
  · unfold create_combined_plot
    rw [hcc]
    simp [hnp, create_plot_from_combined_csv, hr2]

/-- Claim C2, witness: both conclusions at a concrete run whose
rendering raises `"boom"`. -/
theorem c2_render_error_placeholder_then_fail_w :
    create_single_plot
        { input_csv := "in.csv", output_csv := "out.csv", output_plot := "plot.png",
          no_plot := false, title_pfx := "", kmer := 31, min_depth := 1, scaled := 100 }
        (.file 1 (.ok { columns := ["query_name", "containment"], rows := [["q", "0.5"]] }))
        (.error "boom") =
      copyEvs
          { input_csv := "in.csv", output_csv := "out.csv", output_plot := "plot.png",
            no_plot := false, title_pfx := "", kmer := 31, min_depth := 1, scaled := 100 } ++
        [Ev.print ("Error processing CSV: " ++ "boom"),
         Ev.writePlot ("Error: " ++ "boom"), Ev.exitFail]
    ∧ create_combined_plot
        { input_csv := "in.csv", output_csv := "out.csv", output_plot := "plot.png",
          no_plot := false, title_pfx := "", kmer := 31, min_depth := 1, scaled := 100 }
        [("s1.csv", .file 1 (.ok { columns := ["query_name", "containment"],
                                   rows := [["q", "0.5"]] }))]
        (.error "boom") =
        [Ev.writeCsv, Ev.print ("Combined CSV saved to: " ++ "out.csv")] ++
          [Ev.print ("Error creating combined plot: " ++ "boom"),
           Ev.writePlot ("Error: " ++ "boom"), Ev.exitFail] :=
  c2_render_error_placeholder_then_fail
    { input_csv := "in.csv", output_csv := "out.csv", output_plot := "plot.png",
      no_plot := false, title_pfx := "", kmer := 31, min_depth := 1, scaled := 100 }
    1 { columns := ["query_name", "containment"], rows := [["q", "0.5"]] } "boom"
    [("s1.csv", .file 1 (.ok { columns := ["query_name", "containment"],
                               rows := [["q", "0.5"]] }))]
    { columns := ["query_name", "containment", "barcode"], rows := [["q", "0.5", "s1"]] }
    (by decide) (by decide) (by decide) (by decide) (by rfl) (by decide)

/-- Claim C3: when every input file is missing, zero-length, empty of
rows, or lacks a required column, the aggregator persists an empty
table whose columns are exactly `query_name`, `containment`, `barcode`,
with zero rows (and returns `False`, the no-contribution signal). -/
theorem c3_empty_aggregate_schema (files : List (String × File))
    (h : ∀ pf ∈ files, noContribB pf.2 = true) :
    create_combined_csv files = .ok (false, emptyDF)
    ∧ emptyDF.columns = ["query_name", "containment", "barcode"]
    ∧ emptyDF.rows = [] := by
  refine ⟨?_, rfl, rfl⟩
  unfold create_combined_csv
  rw [contributing_nil h]

/-- Claim C3, witness: a list with one missing file, one zero-byte
file, and one file lacking the required columns produces the empty
canonical table. -/
theorem c3_empty_aggregate_schema_w :
    create_combined_csv
        [("x.csv", .missing), ("y.csv", .file 0 (.error "eh")),
         ("z.csv", .file 3 (.ok { columns := ["a"], rows := [["1"]] }))]
      = .ok (false, emptyDF) :=
  (c3_empty_aggregate_schema
    [("x.csv", .missing), ("y.csv", .file 0 (.error "eh")),
     ("z.csv", .file 3 (.ok { columns := ["a"], rows := [["1"]] }))]
    (by decide)).1

/-- Claim C4 (amended): the sample label is the base file name with
every occurrence of the string `".csv"` deleted (`str.replace`), not
general trailing-extension stripping; for a base name made of a
dot-free, slash-free stem followed by `".csv"`, the label is exactly
the stem. -/
theorem c4_sample_label_csv_removed (stem : List Char)
    (h : ∀ c ∈ stem, c ≠ '.' ∧ c ≠ '/') :
    sample_name (String.mk (stem ++ csvPat)) = String.mk stem := by
  unfold sample_name
  have htl : (String.mk (stem ++ csvPat)).toList = stem ++ csvPat := rfl
  rw [htl]
  have hb : basenameL (stem ++ csvPat) = stem ++ csvPat := by
    apply basenameL_no_slash
    intro c hc
    rcases List.mem_append.mp hc with h1 | h1
    · exact (h c h1).2
    · simp only [csvPat, List.mem_cons, List.not_mem_nil, or_false] at h1
      rcases h1 with rfl | rfl | rfl | rfl <;> decide
  rw [hb]
  rw [replace_csv_stem stem (fun c hc => (h c hc).1) _
    (by simp [List.length_append, csvPat])]

/-- Claim C4, counterexample to the claim as stated: the label of
`"dir/a.csv.csv"` is `"a"` (every `".csv"` occurrence removed), not
`"a.csv"` (trailing extension removed); and `"sample.txt"` keeps its
extension entirely. -/
theorem c4_sample_label_not_ext_strip :
    sample_name ("dir/a.csv.csv") ≠ specStripExt ("dir/a.csv.csv")
    ∧ sample_name ("dir/a.csv.csv") = "a"
    ∧ specStripExt ("dir/a.csv.csv") = "a.csv"
    ∧ sample_name ("sample.txt") ≠ specStripExt ("sample.txt")
    ∧ sample_name ("sample.txt") = "sample.txt"
    ∧ specStripExt ("sample.txt") = "sample" := by
  decide

/-- Claim C4, witness: the amended theorem at the stem `"sample2"`. -/
theorem c4_sample_label_csv_removed_w :
    sample_name ("sample2.csv") = "sample2" := by
  have h := c4_sample_label_csv_removed ("sample2".toList) (by decide)
  have e1 : String.mk (("sample2".toList) ++ csvPat) = "sample2.csv" := by decide
  have e2 : String.mk ("sample2".toList) = "sample2" := by decide
  rw [e1, e2] at h
  exact h

/-- Claim C5: the natural sort key orders a shared non-digit prefix
followed by digit runs by the numeric value of the run; digit-free
strings compare as their lowercased text; and the example chain
`sample2 < sample10 < sample100` holds. -/
theorem c5_natural_key_numeric_order (p d1 d2 : List Char)
    (hp : ∀ c ∈ p, c.isDigit = false) (h1 : d1 ≠ []) (h2 : d2 ≠ [])
    (hd1 : ∀ c ∈ d1, c.isDigit = true) (hd2 : ∀ c ∈ d2, c.isDigit = true) :
    (keyLt (natural_sort_key (p ++ d1)) (natural_sort_key (p ++ d2))
      ↔ digitsToNat d1 < digitsToNat d2)
    ∧ (∀ s t : List Char, (∀ c ∈ s, c.isDigit = false) → (∀ c ∈ t, c.isDigit = false) →
        keyCmp (natural_sort_key s) (natural_sort_key t)
          = some (strCmp (s.map Char.toLower) (t.map Char.toLower)))
    ∧ keyLt (natural_sort_key ("sample2".toList)) (natural_sort_key ("sample10".toList))
    ∧ keyLt (natural_sort_key ("sample10".toList)) (natural_sort_key ("sample100".toList)) := by
  refine ⟨?_, ?_, by decide, by decide⟩
  · rw [key_pd hp h1 hd1, key_pd hp h2 hd2]
    unfold keyLt
    rcases Nat.lt_trichotomy (digitsToNat d1) (digitsToNat d2) with h | h | h
    · simp [keyCmp, compCmp, strCmp_self, natCmp, h]
    · rw [h]
      simp [keyCmp, compCmp, strCmp_self, natCmp_self, Nat.lt_irrefl]
    · have hne : digitsToNat d1 ≠ digitsToNat d2 := Nat.ne_of_gt h
      have hnl : ¬ digitsToNat d1 < digitsToNat d2 := Nat.lt_asymm h
      simp [keyCmp, compCmp, strCmp_self, natCmp, hnl, hne]
  · intro s t hs ht
    rw [key_nondigit hs, key_nondigit ht]
    cases ho : strCmp (s.map Char.toLower) (t.map Char.toLower) <;>
      simp [keyCmp, compCmp, ho]

/-- Claim C5, witness: the main equivalence at prefix `"sample"` and
digit runs `"2"`, `"10"`, with the example chain. -/
theorem c5_natural_key_numeric_order_w :
    (keyLt (natural_sort_key ("sample".toList ++ "2".toList))
        (natural_sort_key ("sample".toList ++ "10".toList))
      ↔ digitsToNat ("2".toList) < digitsToNat ("10".toList))
    ∧ keyLt (natural_sort_key ("sample2".toList)) (natural_sort_key ("sample10".toList)) := by
  have h := c5_natural_key_numeric_order ("sample".toList) ("2".toList) ("10".toList)
    (by decide) (by decide) (by decide) (by decide) (by decide)
  exact ⟨h.1, h.2.2.1⟩

/-- Claim C6: the display sort key comes from the substring after the
first space when the identifier has one, otherwise from the identifier
itself, and it is passed through the natural sort key; the two-row
scenario displays `NC_1 Ecoli` before `NC_10 Ecoli`. -/
theorem c6_single_sort_key_display :
    (∀ l : List Char, hasSpace l = false → get_sort_key l = l)
    ∧ (∀ pre suf : List Char, hasSpace pre = false →
        get_sort_key (pre ++ ' ' :: suf) = suf)
    ∧ display_order
        { columns := ["query_name", "containment"],
          rows := [["NC_1 Ecoli", "0.8"], ["NC_10 Ecoli", "0.3"]] }
      = ["NC_1 Ecoli", "NC_10 Ecoli"] := by
  refine ⟨?_, ?_, by decide⟩
  · intro l h
    unfold get_sort_key
    simp only [h, Bool.false_eq_true, if_false]
    exact tw_self (hasSpace_false_mem h)
  · intro pre suf h
    unfold get_sort_key
    rw [hasSpace_append pre suf, if_pos rfl]
    exact afterFirstSpace_append h suf

/-- Claim C6, witness: both key-derivation rules at concrete
identifiers. -/
theorem c6_single_sort_key_display_w :
    get_sort_key ("NC1".toList) = "NC1".toList
    ∧ get_sort_key ("NC_1".toList ++ ' ' :: ("Ecoli".toList)) = "Ecoli".toList := by
  have h := c6_single_sort_key_display
  exact ⟨h.1 _ (by decide), h.2.1 _ _ (by decide)⟩

/-- Claim C7 (amended): both titles carry the k-mer length, the scaling
factor, and the minimum depth exactly when it exceeds one; the
free-text prefix is prepended in single mode but ignored by the
aggregated-mode title. -/
theorem c7_title_composition (a : Args) (p : String) :
    combined_title { a with title_pfx := p } = combined_title a
    ∧ single_title a =
        (if a.title_pfx = "" then "" else a.title_pfx ++ " ") ++ "(" ++ combined_title a ++ ")"
    ∧ (1 < a.min_depth ↔ title_parts a =
        ["scaled=" ++ toString a.scaled, "min_depth=" ++ toString a.min_depth])
    ∧ (a.min_depth ≤ 1 ↔ title_parts a = ["scaled=" ++ toString a.scaled]) := by
  refine ⟨rfl, ?_, ?_, ?_⟩
  · apply str_data_inj
    by_cases hm : 1 < a.min_depth <;> by_cases hp : a.title_pfx = "" <;>
      simp [single_title, combined_title, title_parts, pyJoin, hm, hp, data_append_pc,
        show ("(k=" : String).data = '(' :: ('k' :: ('=' :: [])) from rfl,
        show ("(" : String).data = ['('] from rfl,
        show ("k=" : String).data = ['k', '='] from rfl,
        List.append_assoc]
  · constructor
    · intro hm
      simp [title_parts, hm]
    · intro he
      by_cases hm : 1 < a.min_depth
      · exact hm
      · exfalso
        simp [title_parts, hm] at he
  · constructor
    · intro he
      have hm : ¬ 1 < a.min_depth := not_lt.mpr he
      simp [title_parts, hm]
    · intro he
      by_cases hm : 1 < a.min_depth
      · exfalso
        simp [title_parts, hm] at he
      · exact not_lt.mp hm

/-- Claim C7, counterexample to the claim as stated: with title prefix
`"Run 1"` the single-mode title starts with the prefix, but the
aggregated-mode title is `"k=31, scaled=100"` — the prefix is not
prepended in aggregated mode. -/
theorem c7_combined_title_ignores_pfx :
    combined_title
        { input_csv := "in.csv", output_csv := "out.csv", output_plot := "plot.png",
          no_plot := false, title_pfx := "Run 1", kmer := 31, min_depth := 1, scaled := 100 }
      = "k=31, scaled=100"
    ∧ Args.title_pfx
        { input_csv := "in.csv", output_csv := "out.csv", output_plot := "plot.png",
          no_plot := false, title_pfx := "Run 1", kmer := 31, min_depth := 1, scaled := 100 }
      = "Run 1"
    ∧ lpre ("Run 1".toList)
        ((combined_title
          { input_csv := "in.csv", output_csv := "out.csv", output_plot := "plot.png",
            no_plot := false, title_pfx := "Run 1", kmer := 31, min_depth := 1,
            scaled := 100 }).toList) = false
    ∧ single_title
        { input_csv := "in.csv", output_csv := "out.csv", output_plot := "plot.png",
          no_plot := false, title_pfx := "Run 1", kmer := 31, min_depth := 1, scaled := 100 }
      = "Run 1 (k=31, scaled=100)" := by
  decide

/-- Claim C8 (amended): when the input frame does not already carry a
`barcode` column, combined-mode aggregation of that single file yields
exactly the single-mode loaded table plus one appended constant
`barcode` column holding the derived sample label. -/
theorem c8_roundtrip_single_file (p : String) (sz : Nat) (df : DF)
    (hsz : sz ≠ 0) (hrows : df.rows.isEmpty = false)
    (hq : df.columns.contains "query_name" = true)
    (hc : df.columns.contains "containment" = true)
    (hb : df.columns.contains "barcode" = false) :
    singleLoad (.file sz (.ok df)) = .loaded df
    ∧ create_combined_csv [(p, .file sz (.ok df))] =
        .ok (true, { columns := df.columns ++ ["barcode"],
                     rows := df.rows.map (fun r => r ++ [sample_name p]) }) := by
  constructor
  · simp [singleLoad, hsz, hrows]
  · cases sz with
    | zero => exact absurd rfl hsz
    | succ m =>
      have hq2 : "query_name" ∈ df.columns := by simpa using hq
      have hc2 : "containment" ∈ df.columns := by simpa using hc
      have hb2 : "barcode" ∉ df.columns := by simpa using hb
      simp [create_combined_csv, contributing, hrows, hq2, hc2, hb2, dfAssign, concatDF]

/-- Claim C8, counterexample to the claim as stated: if the input frame
already has a `barcode` column, `df.assign` overwrites its values in
place — the persisted rows differ from the single-mode rows and no
column is added. -/
theorem c8_roundtrip_barcode_overwrite :
    create_combined_csv
        [("s1.csv", .file 1 (.ok { columns := ["query_name", "containment", "barcode"],
                                   rows := [["q", "0.5", "x"]] }))]
      = .ok (true, { columns := ["query_name", "containment", "barcode"],
                     rows := [["q", "0.5", "s1"]] })
    ∧ DF.columns { columns := ["query_name", "containment", "barcode"],
                   rows := [["q", "0.5", "s1"]] }
      = DF.columns { columns := ["query_name", "containment", "barcode"],
                     rows := [["q", "0.5", "x"]] }
    ∧ DF.rows { columns := ["query_name", "containment", "barcode"],
                rows := [["q", "0.5", "s1"]] }
      ≠ DF.rows { columns := ["query_name", "containment", "barcode"],
                  rows := [["q", "0.5", "x"]] } := by
  refine ⟨by rfl, by rfl, by decide⟩

/-- Claim C8, witness: the amended round-trip at a concrete file. -/
theorem c8_roundtrip_single_file_w :
    singleLoad (.file 1 (.ok { columns := ["query_name", "containment"],
                               rows := [["NC_1 Ecoli", "0.8"]] }))
      = .loaded { columns := ["query_name", "containment"], rows := [["NC_1 Ecoli", "0.8"]] }
    ∧ create_combined_csv
        [("dir/sample2.csv", .file 1 (.ok { columns := ["query_name", "containment"],
                                            rows := [["NC_1 Ecoli", "0.8"]] }))]
      = .ok (true, { columns := ["query_name", "containment"] ++ ["barcode"],
                     rows := List.map (fun r => r ++ [sample_name ("dir/sample2.csv")])
                       [["NC_1 Ecoli", "0.8"]] }) :=
  c8_roundtrip_single_file ("dir/sample2.csv") 1
    { columns := ["query_name", "containment"], rows := [["NC_1 Ecoli", "0.8"]] }
    (by decide) (by decide) (by decide) (by decide) (by decide)

/-- Claim C9: in single mode with `--no-plot`, any non-empty parsed
frame with at least one row succeeds before the required-column check:
the input is still copied to the output CSV path, no schema report or
placeholder is produced, and no failure is signaled — even when
`query_name` or `containment` is absent. -/
theorem c9_no_plot_skips_column_check (a : Args) (sz : Nat) (df : DF)
    (r : Except String Unit)
    (hnp : a.no_plot = true) (hsz : sz ≠ 0) (hrows : df.rows.isEmpty = false)
    (_hcols : df.columns.contains "query_name" = false
      ∨ df.columns.contains "containment" = false) :
    create_single_plot a (.file sz (.ok df)) r =
      copyEvs a ++ [Ev.print ("Skipping plot generation. CSV saved to: " ++ a.output_csv)]
    ∧ (a.input_csv ≠ a.output_csv →
        Ev.copyCsv ∈ create_single_plot a (.file sz (.ok df)) r)
    ∧ (∀ s, Ev.writePlot s ∉ create_single_plot a (.file sz (.ok df)) r)
    ∧ Ev.exitFail ∉ create_single_plot a (.file sz (.ok df)) r := by
  have htr : create_single_plot a (.file sz (.ok df)) r =
      copyEvs a ++ [Ev.print ("Skipping plot generation. CSV saved to: " ++ a.output_csv)] := by
    simp [create_single_plot, singleLoad, hsz, hrows, hnp]
  refine ⟨htr, ?_, ?_, ?_⟩
  · intro hne
    rw [htr]
    simp [copyEvs, hne]
  · intro s
    rw [htr]
    by_cases hio : a.input_csv = a.output_csv <;> simp [copyEvs, hio]
  · rw [htr]
    by_cases hio : a.input_csv = a.output_csv <;> simp [copyEvs, hio]

/-- Claim C9, witness: the trace of a concrete `--no-plot` run on a
frame lacking both required columns. -/
theorem c9_no_plot_skips_column_check_w :
    create_single_plot
        { input_csv := "in.csv", output_csv := "out.csv", output_plot := "plot.png",
          no_plot := true, title_pfx := "", kmer := 31, min_depth := 1, scaled := 100 }
        (.file 1 (.ok { columns := ["a"], rows := [["1"]] }))
        (.ok ())
      = copyEvs
          { input_csv := "in.csv", output_csv := "out.csv", output_plot := "plot.png",
            no_plot := true, title_pfx := "", kmer := 31, min_depth := 1, scaled := 100 } ++
        [Ev.print ("Skipping plot generation. CSV saved to: " ++ "out.csv")] :=
  (c9_no_plot_skips_column_check
    { input_csv := "in.csv", output_csv := "out.csv", output_plot := "plot.png",
      no_plot := true, title_pfx := "", kmer := 31, min_depth := 1, scaled := 100 }
    1 { columns := ["a"], rows := [["1"]] } (.ok ())
    (by decide) (by decide) (by decide) (by decide)).1

/-- Claim C10: every key produced by `natural_sort_key` has string
components exactly at even positions and numeric components exactly at
odd positions, so two keys are always mutually comparable and sorting
by this key never raises a type error. -/
theorem c10_key_components_comparable (s t : List Char) :
    GoodKey (natural_sort_key s)
    ∧ (∀ i (hi : i < (natural_sort_key s).length),
        isStrComp ((natural_sort_key s).get ⟨i, hi⟩) = decide (i % 2 = 0))
    ∧ ∃ o, keyCmp (natural_sort_key s) (natural_sort_key t) = some o := by
  have hs := goodKey_key s
  exact ⟨hs, goodKey_parity hs, goodKey_total hs (goodKey_key t)⟩

/-- Claim C10, witness: the position rule and comparability at two
concrete identifiers. -/
theorem c10_key_components_comparable_w :
    isStrComp ((natural_sort_key ("NC_1 Ecoli".toList)).get ⟨1, by decide⟩)
      = decide (1 % 2 = 0)
    ∧ ∃ o, keyCmp (natural_sort_key ("NC_1 Ecoli".toList))
        (natural_sort_key ("sample10".toList)) = some o := by
  have h := c10_key_components_comparable ("NC_1 Ecoli".toList) ("sample10".toList)
  exact ⟨h.2.1 1 (by decide), h.2.2⟩

end PC
